import Mathlib

/-!
# Verification of the arXiv paper summarizer core (src/src/App.tsx)

A shallow embedding of the core logic of the single-page summarizer
application: the arXiv URL validator/extractor (`validateArxivUrl`,
`extractArxivId`) and the submission orchestrator (`handleSubmit`).

The JavaScript regular expression
`/(?:https?:\/\/)?(?:www\.)?arxiv\.org\/(?:abs|pdf)\/(\d+(?:\.\d+)?(?:v\d+)?)/`
is embedded as an executable matcher over `List Char`: an unanchored
left-to-right scan (`scanMatch`) that at each start position tries the
optional scheme and optional `www.` (greedy, with backtracking, exactly as
the regex engine does), then the literal host and `abs/` or `pdf/` segment,
then the greedy capture group `\d+(\.\d+)?(v\d+)?`.  Since nothing follows
the capture group in the pattern, greedy maximal consumption of each part
is exact.

External collaborators (the network call `callAIAgent` and the tolerant
parser `parseLLMJson`) are opaque in the source; they enter the embedding
as parameters of `handleSubmit` (a `NetResult` for the settled network
call, and a parse function `String → SummaryResponse → SummaryResponse`
taking the payload and the caller-supplied fallback).
-/

/-- The character class of the regex token for a decimal digit (ASCII `0`-`9`). -/
def isAsciiDigit (c : Char) : Bool :=
  '0' ≤ c && c ≤ '9'

/-- Greedy `\d*`: the longest digit run at the front, and the rest. -/
def takeDigits : List Char → List Char × List Char
  | [] => ([], [])
  | c :: cs =>
    if isAsciiDigit c then
      let p := takeDigits cs
      (c :: p.1, p.2)
    else ([], c :: cs)

/-- Match a literal character sequence at the front of the input,
returning the remainder on success (`none` on mismatch). -/
def dropLit : List Char → List Char → Option (List Char)
  | [], s => some s
  | _ :: _, [] => none
  | p :: ps, c :: cs => if c = p then dropLit ps cs else none

/-- Greedy `(?:\.\d+)?`: consume `.` followed by at least one digit if
possible, else consume nothing. Returns (consumed, rest). -/
def dotPart : List Char → List Char × List Char
  | [] => ([], [])
  | c :: rest =>
    if c = '.' then
      let p := takeDigits rest
      if p.1.isEmpty then ([], c :: rest) else (c :: p.1, p.2)
    else ([], c :: rest)

/-- Greedy `(?:v\d+)?`: consume `v` followed by at least one digit if
possible, else consume nothing. Returns (consumed, rest). -/
def verPart : List Char → List Char × List Char
  | [] => ([], [])
  | c :: rest =>
    if c = 'v' then
      let p := takeDigits rest
      if p.1.isEmpty then ([], c :: rest) else (c :: p.1, p.2)
    else ([], c :: rest)

/-- The capture group `(\d+(?:\.\d+)?(?:v\d+)?)` at the current position:
the captured characters, or `none` if no digit starts here. -/
def matchId (s : List Char) : Option (List Char) :=
  let p := takeDigits s
  if p.1.isEmpty then none
  else
    let q := dotPart p.2
    let r := verPart q.2
    some (p.1 ++ q.1 ++ r.1)

/-- The host and segment literals of the pattern (the `arxiv.org/` host
followed by `abs/` or `pdf/`), then the capture group. -/
def matchCore (s : List Char) : Option (List Char) :=
  match dropLit "arxiv.org/".toList s with
  | none => none
  | some r1 =>
    match dropLit "abs/".toList r1 with
    | some r2 => matchId r2
    | none =>
      match dropLit "pdf/".toList r1 with
      | some r2 => matchId r2
      | none => none

/-- Ordered alternation: the first alternative when it matches, else the
second — the backtracking order of the regex engine. -/
def orElseO (a b : Option (List Char)) : Option (List Char) :=
  match a with
  | some x => some x
  | none => b

/-- Optional `www.` then the core: the greedy optional group first tries
consuming `www.` and backtracks to consuming nothing. -/
def matchWww (s : List Char) : Option (List Char) :=
  match dropLit "www.".toList s with
  | some r => orElseO (matchCore r) (matchCore s)
  | none => matchCore s

/-- One alternative of the optional scheme: consume the given scheme
literal, then match the rest of the pattern. -/
def schemeTry (lit : List Char) (s : List Char) : Option (List Char) :=
  match dropLit lit s with
  | some r => matchWww r
  | none => none

/-- Optional scheme then the rest: the greedy `s?` tries `https://` before
`http://`, and the optional group backtracks to consuming nothing. -/
def matchAt (s : List Char) : Option (List Char) :=
  orElseO (schemeTry "https://".toList s)
    (orElseO (schemeTry "http://".toList s) (matchWww s))

/-- The unanchored scan: try the pattern at each start position from the
left; the first (leftmost) match wins, as in `RegExp.test` / `String.match`
without the global flag. -/
def scanMatch : List Char → Option (List Char)
  | [] => none
  | c :: cs => orElseO (matchAt (c :: cs)) (scanMatch cs)

/-- Embeds `validateArxivUrl` from src/src/App.tsx: `arxivRegex.test(url)`. -/
def validateArxivUrl (url : String) : Bool :=
  (scanMatch url.toList).isSome

/-- Embeds `extractArxivId` from src/src/App.tsx: `url.match(...)`, returning
the first capture group or the empty string when there is no match. -/
def extractArxivId (url : String) : String :=
  match scanMatch url.toList with
  | some id => String.mk id
  | none => ""

/-! ## The application state and the submission orchestrator -/

/-- The `PaperMetadata` interface of src/src/App.tsx. -/
structure PaperMetadata where
  title : String
  authors : List String
  abstract : String
  url : String
  published_date : String
deriving Repr, DecidableEq

/-- The `data` field of the `SummaryResponse` interface: the optional
fields of the parsed collaborator payload. -/
structure SummaryData where
  metadata : Option PaperMetadata
  summary : Option String
  error : Option String
deriving Repr, DecidableEq

/-- The `SummaryResponse` interface of src/src/App.tsx. -/
structure SummaryResponse where
  success : Bool
  data : SummaryData
deriving Repr, DecidableEq

/-- The value held by the `paperData` state variable when non-null. -/
structure PaperData where
  metadata : PaperMetadata
  summary : String
deriving Repr, DecidableEq

/-- The four `useState` variables of the `App` component. -/
structure AppState where
  url : String
  loading : Bool
  error : String
  paperData : Option PaperData
deriving Repr, DecidableEq

/-- The settled outcome of `await callAIAgent(...)`: either the
`response.response` payload string, or a thrown exception. -/
inductive NetResult where
  | ok (response : String)
  | exn
deriving Repr, DecidableEq

/-- The fixed agent identifier passed to `callAIAgent`. -/
def agentId : String := "68f24d4e811f17edf77d460e"

/-- The fallback value handed to `parseLLMJson` in `handleSubmit`:
`{ success: false, data: { error: 'Failed to parse response' } }`. -/
def parseFallback : SummaryResponse :=
  { success := false
    data := { metadata := none, summary := none, error := some "Failed to parse response" } }

/-- Embeds `result.data.error || 'Failed to summarize paper'`: the parsed error
message when present and truthy (non-empty), else the generic fallback. -/
def errMsg (o : Option String) : String :=
  match o with
  | some s => if s = "" then "Failed to summarize paper" else s
  | none => "Failed to summarize paper"

/-- The JavaScript whitespace class used by `String.prototype.trim`. -/
def isJsWhitespace (c : Char) : Bool :=
  c = ' ' || c = '\t' || c = '\n' || c = '\r' || c = '\x0b' || c = '\x0c' ||
  c = '\u00A0' || c = '\u1680' ||
  ('\u2000' ≤ c && c ≤ '\u200A') ||
  c = '\u2028' || c = '\u2029' || c = '\u202F' || c = '\u205F' ||
  c = '\u3000' || c = '\uFEFF'

/-- Embeds `url.trim()` of JavaScript: strip leading and trailing whitespace. -/
def jsTrim (s : String) : String :=
  String.mk (((s.toList.dropWhile isJsWhitespace).reverse.dropWhile isJsWhitespace).reverse)

/-- The observable outcome of one `handleSubmit` run: the successive
states produced by each `set*` call, in program order (the state before
the run is not included), and the list of `callAIAgent` invocations as
(message, agent id) pairs. -/
structure SubmitOutcome where
  trace : List AppState
  calls : List (String × String)
deriving Repr, DecidableEq

/-- The state after the run settles: the last state of the trace (the
trace is never empty; `s0` is a formal default). -/
def finalState (s0 : AppState) (o : SubmitOutcome) : AppState :=
  o.trace.getLastD s0

/-- Embeds `handleSubmit` from src/src/App.tsx, parameterised by the settled
network outcome `net` and the opaque tolerant parser `parse` (payload and
fallback to parsed response).  Follows the source line by line:
clear error and result; reject empty input; reject invalid input;
set loading; build the prompt and call the agent exactly once; on a
payload, parse with the fallback and branch on
`result.success && result.data.metadata && result.data.summary`
(JavaScript truthiness); on a thrown exception set the generic error;
finally clear loading. -/
def handleSubmit (net : NetResult) (parse : String → SummaryResponse → SummaryResponse)
    (s0 : AppState) : SubmitOutcome :=
  let s1 : AppState := { s0 with error := "", paperData := none }
  if jsTrim s1.url = "" then
    { trace := [s1, { s1 with error := "Please enter an arXiv URL" }], calls := [] }
  else if !validateArxivUrl s1.url then
    { trace := [s1,
        { s1 with error := "Please enter a valid arXiv URL (e.g., https://arxiv.org/abs/1234.56789)" }]
      calls := [] }
  else
    let s2 : AppState := { s1 with loading := true }
    let message := "Summarize this arXiv paper: " ++ extractArxivId s1.url
    match net with
    | NetResult.exn =>
      let s3 : AppState :=
        { s2 with error := "An error occurred while processing the paper. Please try again." }
      { trace := [s1, s2, s3, { s3 with loading := false }], calls := [(message, agentId)] }
    | NetResult.ok resp =>
      let result := parse resp parseFallback
      let s3 : AppState :=
        match result.success, result.data.metadata, result.data.summary with
        | true, some md, some sm =>
          if sm = "" then { s2 with error := errMsg result.data.error }
          else { s2 with paperData := some { metadata := md, summary := sm } }
        | _, _, _ => { s2 with error := errMsg result.data.error }
      { trace := [s1, s2, s3, { s3 with loading := false }], calls := [(message, agentId)] }

/-- The `RequestState` of the specification, as the view derives it from
the state variables: `Loading` while `loading` holds, otherwise the result
card (`Succeeded`), the error alert (`Failed`), or `Idle`. -/
inductive Classification where
  | idle
  | loading
  | failed (msg : String)
  | succeeded (pd : PaperData)
deriving Repr, DecidableEq

/-- Map a state to its `RequestState` classification. -/
def classify (s : AppState) : Classification :=
  if s.loading then Classification.loading
  else
    match s.paperData with
    | some pd => Classification.succeeded pd
    | none => if s.error = "" then Classification.idle else Classification.failed s.error

/-! ## Concrete runs used as witnesses -/

/-- A sample metadata record for concrete runs. -/
def mdEx : PaperMetadata :=
  { title := "T", authors := ["A"], abstract := "B", url := "u", published_date := "d" }

/-- An idle state holding a short valid arXiv URL. -/
def okSt : AppState :=
  { url := "arxiv.org/abs/1", loading := false, error := "", paperData := none }

/-- An idle state holding a whitespace-only input. -/
def blankSt : AppState :=
  { url := "   ", loading := false, error := "", paperData := none }

/-- An idle state holding a non-empty input that is not an arXiv URL. -/
def badSt : AppState :=
  { url := "https://example.com/abs/12", loading := false, error := "", paperData := none }

/-- An idle state holding the example URL of the specification. -/
def exampleSt : AppState :=
  { url := "https://arxiv.org/abs/1234.56789", loading := false, error := "", paperData := none }

/-- A parse outcome: a fully successful summary payload. -/
def parseGood : String → SummaryResponse → SummaryResponse :=
  fun _ _ => { success := true
               data := { metadata := some mdEx, summary := some "S", error := none } }

/-- A parse outcome: parsing is impossible, so the fallback is returned. -/
def parseFail : String → SummaryResponse → SummaryResponse :=
  fun _ fb => fb

/-- A parse outcome: success with metadata and a present but empty summary. -/
def parseEmptySummary : String → SummaryResponse → SummaryResponse :=
  fun _ _ => { success := true
               data := { metadata := some mdEx, summary := some "", error := none } }

/-- A parse outcome: failure carrying a present but empty error message. -/
def parseEmptyError : String → SummaryResponse → SummaryResponse :=
  fun _ _ => { success := false
               data := { metadata := none, summary := none, error := some "" } }

/-- The settled (error, result) pair of the valid path of `handleSubmit`,
as a function of the network outcome and the parse alone (the input URL
only influences it through the guards, which the valid path has passed). -/
def settleResult (net : NetResult)
    (parse : String → SummaryResponse → SummaryResponse) : String × Option PaperData :=
  match net with
  | NetResult.exn => ("An error occurred while processing the paper. Please try again.", none)
  | NetResult.ok resp =>
    let result := parse resp parseFallback
    match result.success, result.data.metadata, result.data.summary with
    | true, some md, some sm =>
      if sm = "" then (errMsg result.data.error, none)
      else ("", some { metadata := md, summary := sm })
    | _, _, _ => (errMsg result.data.error, none)

/-! ## Lemmas about the matcher -/

/-- Every character captured by the greedy digit run is a digit. -/
theorem takeDigits_digits : ∀ l : List Char, ∀ c ∈ (takeDigits l).1, isAsciiDigit c = true := by
  intro l
  induction l with
  | nil => intro c hc; simp [takeDigits] at hc
  | cons a as ih =>
    intro c hc
    by_cases ha : isAsciiDigit a
    · simp only [takeDigits, ha, if_true] at hc
      rcases List.mem_cons.mp hc with rfl | hc
      · exact ha
      · exact ih c hc
    · simp [takeDigits, ha] at hc

/-- The consumed part of the optional dot segment is empty or a dot
followed by a non-empty digit run. -/
theorem dotPart_shape (t : List Char) :
    (dotPart t).1 = [] ∨
      ∃ d, d ≠ [] ∧ (∀ c ∈ d, isAsciiDigit c = true) ∧ (dotPart t).1 = '.' :: d := by
  cases t with
  | nil => left; rfl
  | cons c rest =>
    by_cases hc : c = '.'
    · subst hc
      by_cases he : (takeDigits rest).1.isEmpty
      · left; simp [dotPart, he]
      · right
        refine ⟨(takeDigits rest).1, ?_, fun c hc => takeDigits_digits rest c hc, ?_⟩
        · simpa [List.isEmpty_iff] using he
        · simp [dotPart, he]
    · left; simp [dotPart, hc]

/-- The consumed part of the optional version segment is empty or a `v`
followed by a non-empty digit run. -/
theorem verPart_shape (t : List Char) :
    (verPart t).1 = [] ∨
      ∃ d, d ≠ [] ∧ (∀ c ∈ d, isAsciiDigit c = true) ∧ (verPart t).1 = 'v' :: d := by
  cases t with
  | nil => left; rfl
  | cons c rest =>
    by_cases hc : c = 'v'
    · subst hc
      by_cases he : (takeDigits rest).1.isEmpty
      · left; simp [verPart, he]
      · right
        refine ⟨(takeDigits rest).1, ?_, fun c hc => takeDigits_digits rest c hc, ?_⟩
        · simpa [List.isEmpty_iff] using he
        · simp [verPart, he]
    · left; simp [verPart, hc]

/-- Shape of the identifier: what the capture group matches decomposes as
a non-empty digit run, an optional dot segment and an optional version
segment. -/
theorem matchId_shape {s id : List Char} (h : matchId s = some id) :
    id ≠ [] ∧
      ∃ d q r, id = d ++ q ++ r ∧ d ≠ [] ∧ (∀ c ∈ d, isAsciiDigit c = true) ∧
        (q = [] ∨ ∃ d2, d2 ≠ [] ∧ (∀ c ∈ d2, isAsciiDigit c = true) ∧ q = '.' :: d2) ∧
        (r = [] ∨ ∃ d3, d3 ≠ [] ∧ (∀ c ∈ d3, isAsciiDigit c = true) ∧ r = 'v' :: d3) := by
  unfold matchId at h
  by_cases he : (takeDigits s).1.isEmpty
  · simp [he] at h
  · simp [he] at h
    have hd : (takeDigits s).1 ≠ [] := by simpa [List.isEmpty_iff] using he
    constructor
    · intro h0
      rw [h0] at h
      simp [List.append_eq_nil] at h
      exact hd h.1
    · exact ⟨(takeDigits s).1, (dotPart (takeDigits s).2).1,
        (verPart (dotPart (takeDigits s).2).2).1, by rw [← h, List.append_assoc], hd,
        fun c hc => takeDigits_digits s c hc,
        dotPart_shape (takeDigits s).2,
        verPart_shape (dotPart (takeDigits s).2).2⟩

/-- Inversion for the ordered alternation. -/
theorem orElseO_some {a b : Option (List Char)} {id : List Char}
    (h : orElseO a b = some id) : a = some id ∨ b = some id := by
  cases a with
  | none => right; exact h
  | some x => left; exact h

/-- Inversion: a core match comes from the capture group somewhere. -/
theorem matchCore_some {s id : List Char} (h : matchCore s = some id) :
    ∃ t, matchId t = some id := by
  unfold matchCore at h
  split at h
  · exact absurd h (by simp)
  · split at h
    · exact ⟨_, h⟩
    · split at h
      · exact ⟨_, h⟩
      · exact absurd h (by simp)

/-- Inversion through the optional `www.` group. -/
theorem matchWww_some {s id : List Char} (h : matchWww s = some id) :
    ∃ t, matchId t = some id := by
  unfold matchWww at h
  split at h
  · rcases orElseO_some h with h2 | h2
    · exact matchCore_some h2
    · exact matchCore_some h2
  · exact matchCore_some h

/-- Inversion through one scheme alternative. -/
theorem schemeTry_some {lit s : List Char} {id : List Char}
    (h : schemeTry lit s = some id) : ∃ t, matchId t = some id := by
  unfold schemeTry at h
  split at h
  · exact matchWww_some h
  · exact absurd h (by simp)

/-- Inversion through the optional scheme group. -/
theorem matchAt_some {s id : List Char} (h : matchAt s = some id) :
    ∃ t, matchId t = some id := by
  unfold matchAt at h
  rcases orElseO_some h with h1 | h1
  · exact schemeTry_some h1
  · rcases orElseO_some h1 with h2 | h2
    · exact schemeTry_some h2
    · exact matchWww_some h2

/-- Inversion through the unanchored scan. -/
theorem scanMatch_some : ∀ {l id : List Char}, scanMatch l = some id →
    ∃ t, matchId t = some id := by
  intro l
  induction l with
  | nil => intro id h; exact absurd h (by simp [scanMatch])
  | cons c cs ih =>
    intro id h
    unfold scanMatch at h
    rcases orElseO_some h with h1 | h1
    · exact matchAt_some h1
    · exact ih h1

/-- A string built from a non-empty character list is not the empty
string. -/
theorem mk_ne_empty {l : List Char} (h : l ≠ []) : String.mk l ≠ "" := by
  intro he
  have h2 := congrArg String.data he
  simp at h2
  exact h h2

/-! ## Lemmas about the orchestrator -/

/-- The message produced by the error fallback is never empty. -/
theorem errMsg_ne (o : Option String) : errMsg o ≠ "" := by
  unfold errMsg
  rcases o with _ | s
  · simp
  · by_cases hs : s = "" <;> simp [hs]

/-- On valid non-blank input the run settles in a state determined by the
input URL, the network outcome and the parse alone. -/
theorem handleSubmit_valid_final (net : NetResult)
    (parse : String → SummaryResponse → SummaryResponse) (s0 : AppState)
    (h1 : jsTrim s0.url ≠ "") (h2 : validateArxivUrl s0.url = true) :
    finalState s0 (handleSubmit net parse s0) =
      { url := s0.url, loading := false,
        error := (settleResult net parse).1, paperData := (settleResult net parse).2 } := by
  cases net with
  | exn => simp [handleSubmit, finalState, settleResult, h1, h2]
  | ok resp =>
    rcases hres : parse resp parseFallback with ⟨su, md, sm, er⟩
    cases su <;> rcases md with _ | md <;> rcases sm with _ | sm <;>
      simp [handleSubmit, finalState, settleResult, h1, h2, hres]
    by_cases hsm : sm = "" <;> simp [hsm]

/-! ## The claims -/

/-- C6: for every input that is empty or whitespace-only, `handleSubmit`
settles in `Failed("Please enter an arXiv URL")` and makes no network
call (from a non-loading start, as submission is only possible then). -/
theorem submit_empty_input_failed (net : NetResult)
    (parse : String → SummaryResponse → SummaryResponse) (s0 : AppState)
    (h1 : jsTrim s0.url = "") (h0 : s0.loading = false) :
    classify (finalState s0 (handleSubmit net parse s0))
      = Classification.failed "Please enter an arXiv URL"
    ∧ (handleSubmit net parse s0).calls = [] := by
  simp [handleSubmit, finalState, classify, h1, h0]

/-- Witness for C6 at a whitespace-only input. -/
theorem submit_empty_input_failed_witness :
    jsTrim blankSt.url = "" ∧ blankSt.loading = false ∧
    (classify (finalState blankSt (handleSubmit NetResult.exn parseFail blankSt))
        = Classification.failed "Please enter an arXiv URL"
      ∧ (handleSubmit NetResult.exn parseFail blankSt).calls = []) :=
  ⟨by decide, rfl, submit_empty_input_failed NetResult.exn parseFail blankSt (by decide) rfl⟩

/-- C7: for every non-blank input rejected by the URL validator,
`handleSubmit` settles in the malformed-URL failure and makes no network
call. -/
theorem submit_invalid_input_failed (net : NetResult)
    (parse : String → SummaryResponse → SummaryResponse) (s0 : AppState)
    (h1 : jsTrim s0.url ≠ "") (h2 : validateArxivUrl s0.url = false) (h0 : s0.loading = false) :
    classify (finalState s0 (handleSubmit net parse s0))
      = Classification.failed
          "Please enter a valid arXiv URL (e.g., https://arxiv.org/abs/1234.56789)"
    ∧ (handleSubmit net parse s0).calls = [] := by
  simp [handleSubmit, finalState, classify, h1, h2, h0]

/-- Witness for C7 at a non-arXiv URL. -/
theorem submit_invalid_input_failed_witness :
    jsTrim badSt.url ≠ "" ∧ validateArxivUrl badSt.url = false ∧
    (classify (finalState badSt (handleSubmit NetResult.exn parseFail badSt))
        = Classification.failed
            "Please enter a valid arXiv URL (e.g., https://arxiv.org/abs/1234.56789)"
      ∧ (handleSubmit NetResult.exn parseFail badSt).calls = []) :=
  ⟨by decide, by decide,
    submit_invalid_input_failed NetResult.exn parseFail badSt (by decide) (by decide) rfl⟩

/-- C3: on non-blank valid input, `handleSubmit` transitions to the
`Loading` state with previous error and result cleared, and invokes the
collaborator exactly once, with the prompt embedding the extracted
identifier and with the fixed agent identifier. -/
theorem submit_valid_loading_call (net : NetResult)
    (parse : String → SummaryResponse → SummaryResponse) (s0 : AppState)
    (h1 : jsTrim s0.url ≠ "") (h2 : validateArxivUrl s0.url = true) :
    ({ url := s0.url, loading := true, error := "", paperData := none } : AppState)
        ∈ (handleSubmit net parse s0).trace
    ∧ (handleSubmit net parse s0).calls
        = [("Summarize this arXiv paper: " ++ extractArxivId s0.url, agentId)] := by
  cases net <;> simp [handleSubmit, h1, h2]

/-- Witness for C3 at the specification's example URL, with the prompt
fully evaluated. -/
theorem submit_valid_loading_call_witness :
    jsTrim exampleSt.url ≠ "" ∧ validateArxivUrl exampleSt.url = true ∧
    (handleSubmit NetResult.exn parseFail exampleSt).calls
      = [("Summarize this arXiv paper: 1234.56789", agentId)] := by
  refine ⟨by decide, by decide, ?_⟩
  have h := submit_valid_loading_call NetResult.exn parseFail exampleSt (by decide) (by decide)
  exact h.2.trans (by decide)

/-- C4: every run that enters the `Loading` state — equivalently, one
that issues the network call, since `setLoading(true)` immediately
precedes the guarded call — settles with `loading` cleared; and from a
non-loading start no input whatsoever ends with `loading` set. -/
theorem submit_loading_cleared (net : NetResult)
    (parse : String → SummaryResponse → SummaryResponse) (s0 : AppState) :
    ((handleSubmit net parse s0).calls ≠ [] →
      (finalState s0 (handleSubmit net parse s0)).loading = false)
    ∧ (s0.loading = false →
      (finalState s0 (handleSubmit net parse s0)).loading = false) := by
  by_cases h1 : jsTrim s0.url = ""
  · simp [handleSubmit, finalState, h1]
  · by_cases h2 : validateArxivUrl s0.url
    · cases net <;> simp [handleSubmit, finalState, h1, h2]
    · simp [handleSubmit, finalState, h1, h2]

/-- Witness for C4: a run that issues the call ends with `loading`
cleared. -/
theorem submit_loading_cleared_witness :
    (handleSubmit NetResult.exn parseFail okSt).calls ≠ [] ∧
    (finalState okSt (handleSubmit NetResult.exn parseFail okSt)).loading = false :=
  ⟨by decide, (submit_loading_cleared NetResult.exn parseFail okSt).1 (by decide)⟩

/-- C5: when the network call itself raises, the run settles in
`Failed("An error occurred while processing the paper. Please try again.")`. -/
theorem submit_netexn_failed
    (parse : String → SummaryResponse → SummaryResponse) (s0 : AppState)
    (h1 : jsTrim s0.url ≠ "") (h2 : validateArxivUrl s0.url = true) :
    classify (finalState s0 (handleSubmit NetResult.exn parse s0))
      = Classification.failed
          "An error occurred while processing the paper. Please try again." := by
  simp [handleSubmit, finalState, classify, h1, h2]

/-- Witness for C5. -/
theorem submit_netexn_failed_witness :
    jsTrim okSt.url ≠ "" ∧ validateArxivUrl okSt.url = true ∧
    classify (finalState okSt (handleSubmit NetResult.exn parseFail okSt))
      = Classification.failed
          "An error occurred while processing the paper. Please try again." :=
  ⟨by decide, by decide, submit_netexn_failed parseFail okSt (by decide) (by decide)⟩

/-- C1 (amended): if the parsed result signals success with metadata
present and a present non-empty summary, the run settles in `Succeeded`
carrying exactly that metadata and that summary; and whenever the settled
state carries a result, its summary is non-empty. -/
theorem submit_success_state :
    (∀ resp parse s0 md sm, jsTrim s0.url ≠ "" → validateArxivUrl s0.url = true →
      (parse resp parseFallback).success = true →
      (parse resp parseFallback).data.metadata = some md →
      (parse resp parseFallback).data.summary = some sm → sm ≠ "" →
      classify (finalState s0 (handleSubmit (NetResult.ok resp) parse s0))
        = Classification.succeeded { metadata := md, summary := sm })
    ∧ ∀ net parse s0 pd,
        (finalState s0 (handleSubmit net parse s0)).paperData = some pd →
        pd.summary ≠ "" := by
  constructor
  · intro resp parse s0 md sm h1 h2 hs hm hsm hne
    rw [handleSubmit_valid_final _ _ _ h1 h2]
    simp [classify, settleResult, hs, hm, hsm, hne]
  · intro net parse s0 pd h
    by_cases h1 : jsTrim s0.url = ""
    · simp [handleSubmit, finalState, h1] at h
    · by_cases h2 : validateArxivUrl s0.url
      · rw [handleSubmit_valid_final net parse s0 h1 h2] at h
        simp only at h
        cases net with
        | exn => simp [settleResult] at h
        | ok resp =>
          rcases hres : parse resp parseFallback with ⟨su, md, sm, er⟩
          cases su <;> rcases md with _ | md <;> rcases sm with _ | sm <;>
            simp [settleResult, hres] at h
          by_cases hsm : sm = ""
          · simp [hsm] at h
          · simp [hsm] at h
            rw [← h]
            exact hsm
      · simp [handleSubmit, finalState, h1, h2] at h

/-- Witness for C1 on a fully successful parsed result. -/
theorem submit_success_state_witness :
    (parseGood "r" parseFallback).success = true ∧
    (parseGood "r" parseFallback).data.metadata = some mdEx ∧
    (parseGood "r" parseFallback).data.summary = some "S" ∧
    classify (finalState okSt (handleSubmit (NetResult.ok "r") parseGood okSt))
      = Classification.succeeded { metadata := mdEx, summary := "S" } :=
  ⟨rfl, rfl, rfl,
    submit_success_state.1 "r" parseGood okSt mdEx "S" (by decide) (by decide) rfl rfl rfl
      (by decide)⟩

/-- C1 as stated fails on the code: a parsed result that signals success
with metadata and summary both present, the summary being the empty
string, is classified `Failed("Failed to summarize paper")`, not
`Succeeded` with that metadata and summary. -/
theorem submit_success_present_only_cex :
    (parseEmptySummary "r" parseFallback).success = true ∧
    (parseEmptySummary "r" parseFallback).data.metadata = some mdEx ∧
    (parseEmptySummary "r" parseFallback).data.summary = some "" ∧
    classify (finalState okSt (handleSubmit (NetResult.ok "r") parseEmptySummary okSt))
      = Classification.failed "Failed to summarize paper" ∧
    classify (finalState okSt (handleSubmit (NetResult.ok "r") parseEmptySummary okSt))
      ≠ Classification.succeeded { metadata := mdEx, summary := "" } :=
  ⟨rfl, rfl, rfl, by decide, by decide⟩

/-- C2 (amended): on non-blank valid input, a parsed result that does not
satisfy (success and metadata present and summary present) settles in
`Failed` with the parsed error message when present and non-empty, else
the generic fallback; and when parsing returns the caller-supplied
fallback, the run settles in `Failed("Failed to parse response")`. -/
theorem submit_failure_message :
    (∀ resp parse s0, jsTrim s0.url ≠ "" → validateArxivUrl s0.url = true →
      ¬((parse resp parseFallback).success = true ∧
        (parse resp parseFallback).data.metadata.isSome = true ∧
        (parse resp parseFallback).data.summary.isSome = true) →
      classify (finalState s0 (handleSubmit (NetResult.ok resp) parse s0))
        = Classification.failed (errMsg (parse resp parseFallback).data.error))
    ∧ ∀ resp parse s0, jsTrim s0.url ≠ "" → validateArxivUrl s0.url = true →
        parse resp parseFallback = parseFallback →
        classify (finalState s0 (handleSubmit (NetResult.ok resp) parse s0))
          = Classification.failed "Failed to parse response" := by
  constructor
  · intro resp parse s0 h1 h2 hn
    rw [handleSubmit_valid_final _ _ _ h1 h2]
    rcases hres : parse resp parseFallback with ⟨su, md, sm, er⟩
    cases su <;> rcases md with _ | md <;> rcases sm with _ | sm <;>
      simp_all [settleResult, classify, errMsg_ne er]
  · intro resp parse s0 h1 h2 hp
    rw [handleSubmit_valid_final _ _ _ h1 h2]
    simp only [settleResult]
    rw [hp]
    simp [parseFallback, classify, errMsg]

/-- Witness for C2: a parse that yields the fallback settles in the
parse-failure message. -/
theorem submit_failure_message_witness :
    parseFail "r" parseFallback = parseFallback ∧
    classify (finalState okSt (handleSubmit (NetResult.ok "r") parseFail okSt))
      = Classification.failed "Failed to parse response" :=
  ⟨rfl, submit_failure_message.2 "r" parseFail okSt (by decide) (by decide) rfl⟩

/-- C2 as stated fails on the code: a parsed failure carrying a present
error message that is the empty string settles in
`Failed("Failed to summarize paper")`, not in `Failed` with the parsed
(empty) message. -/
theorem submit_error_present_empty_cex :
    (parseEmptyError "r" parseFallback).data.error = some "" ∧
    classify (finalState okSt (handleSubmit (NetResult.ok "r") parseEmptyError okSt))
      = Classification.failed "Failed to summarize paper" ∧
    classify (finalState okSt (handleSubmit (NetResult.ok "r") parseEmptyError okSt))
      ≠ Classification.failed "" :=
  ⟨rfl, by decide, by decide⟩

/-- C8: a string accepted by the pattern yields a non-empty identifier
that decomposes as digits, an optional dot followed by digits and an
optional `v` followed by digits; a string with no match yields the empty
identifier. -/
theorem extract_id_shape (s : String) :
    (validateArxivUrl s = true →
      extractArxivId s ≠ "" ∧
      ∃ d q r, (extractArxivId s).toList = d ++ q ++ r ∧ d ≠ [] ∧
        (∀ c ∈ d, isAsciiDigit c = true) ∧
        (q = [] ∨ ∃ d2, d2 ≠ [] ∧ (∀ c ∈ d2, isAsciiDigit c = true) ∧ q = '.' :: d2) ∧
        (r = [] ∨ ∃ d3, d3 ≠ [] ∧ (∀ c ∈ d3, isAsciiDigit c = true) ∧ r = 'v' :: d3))
    ∧ (validateArxivUrl s = false → extractArxivId s = "") := by
  constructor
  · intro hv
    unfold validateArxivUrl at hv
    rcases hm : scanMatch s.toList with _ | id
    · rw [hm] at hv; simp at hv
    · obtain ⟨t, ht⟩ := scanMatch_some hm
      obtain ⟨hne, hdec⟩ := matchId_shape ht
      unfold extractArxivId
      rw [hm]
      exact ⟨mk_ne_empty hne, hdec⟩
  · intro hv
    unfold validateArxivUrl at hv
    rcases hm : scanMatch s.toList with _ | id
    · unfold extractArxivId
      rw [hm]
    · rw [hm] at hv; simp at hv

/-- Witness for C8: a matching and a non-matching input. -/
theorem extract_id_shape_witness :
    validateArxivUrl "arxiv.org/pdf/12.3v4" = true ∧
    extractArxivId "arxiv.org/pdf/12.3v4" ≠ "" ∧
    validateArxivUrl "no url" = false ∧
    extractArxivId "no url" = "" :=
  ⟨by decide, ((extract_id_shape "arxiv.org/pdf/12.3v4").1 (by decide)).1,
    by decide, (extract_id_shape "no url").2 (by decide)⟩

/-- C9: submitting the same valid URL twice in sequence, waiting for
settlement each time, reproduces the same settled state and hence the
same classification, given the same network outcome and parse. -/
theorem submit_idempotent (net : NetResult)
    (parse : String → SummaryResponse → SummaryResponse) (s0 : AppState)
    (h1 : jsTrim s0.url ≠ "") (h2 : validateArxivUrl s0.url = true) :
    finalState (finalState s0 (handleSubmit net parse s0))
        (handleSubmit net parse (finalState s0 (handleSubmit net parse s0)))
      = finalState s0 (handleSubmit net parse s0)
    ∧ classify (finalState (finalState s0 (handleSubmit net parse s0))
          (handleSubmit net parse (finalState s0 (handleSubmit net parse s0))))
        = classify (finalState s0 (handleSubmit net parse s0)) := by
  have hf := handleSubmit_valid_final net parse s0 h1 h2
  have hurl : (finalState s0 (handleSubmit net parse s0)).url = s0.url := by rw [hf]
  have hf2 := handleSubmit_valid_final net parse (finalState s0 (handleSubmit net parse s0))
      (by rw [hurl]; exact h1) (by rw [hurl]; exact h2)
  constructor
  · rw [hf2, hf]
  · rw [hf2, hf]

/-- Witness for C9 at a concrete URL, network outcome and parse. -/
theorem submit_idempotent_witness :
    jsTrim okSt.url ≠ "" ∧ validateArxivUrl okSt.url = true ∧
    classify (finalState (finalState okSt (handleSubmit (NetResult.ok "r") parseGood okSt))
          (handleSubmit (NetResult.ok "r") parseGood
            (finalState okSt (handleSubmit (NetResult.ok "r") parseGood okSt))))
      = classify (finalState okSt (handleSubmit (NetResult.ok "r") parseGood okSt)) :=
  ⟨by decide, by decide,
    (submit_idempotent (NetResult.ok "r") parseGood okSt (by decide) (by decide)).2⟩

/-- C10: validation succeeds exactly when the extracted identifier is
non-empty — both are driven by the same pattern. -/
theorem validate_iff_extract_nonempty (s : String) :
    validateArxivUrl s = true ↔ extractArxivId s ≠ "" := by
  unfold validateArxivUrl extractArxivId
  rcases hm : scanMatch s.toList with _ | id
  · simp
  · simp only [Option.isSome_some, true_iff]
    obtain ⟨t, ht⟩ := scanMatch_some hm
    exact mk_ne_empty (matchId_shape ht).1

/-- Witness for C10 at a concrete URL. -/
theorem validate_iff_extract_nonempty_witness :
    validateArxivUrl "arxiv.org/abs/1" = true ↔ extractArxivId "arxiv.org/abs/1" ≠ "" :=
  validate_iff_extract_nonempty "arxiv.org/abs/1"

